import Mathlib

/-!
# Verification of `packages/hardhat-zksync-solc/src/compile/downloader.ts`

A shallow embedding of the `ZksolcCompilerDownloader` class. Effectful
methods are modelled as explicit state transformers over a `World` record
holding the filesystem and process state the class touches (the cached
version-info file, the binary at the resolved compiler path, the clock,
and the outcomes the injected download function and the verification
subprocess would produce). Each transformer also returns the list of
observable side effects (`Event`s) it performs, in order.

Helpers imported from `../utils`, `../constants` and `../errors` are not
part of the source tree; they are modelled from the spec and marked as
such in their doc comments.
-/

namespace Downloader

/-- Mirrors the `CompilerVersionInfo` interface: the manifest's
`latest` and `minVersion` fields, both version strings. -/
structure CompilerVersionInfo where
  latest : String
  minVersion : String
deriving Repr, DecidableEq

/-- State of the cached `compilerVersionInfo.json` file: its parsed
content and its creation time (`ctimeMs`), which staleness is measured
against. -/
structure FileState where
  info : CompilerVersionInfo
  ctimeMs : Int
deriving Repr, DecidableEq

/-- Result of `spawnSync(compilerPath, ['--version'])`: the exit status
(`none` when the process could not be spawned) and captured stdout
(`none` when unavailable). -/
structure SpawnOutput where
  status : Option Int
  stdout : Option String
deriving Repr, DecidableEq

/-- The filesystem and process state the downloader interacts with.
`versionInfoFile` is the file at the version-info path; `binaryFile` is
the permission mode of the file at the resolved compiler path (`none`
when absent); `newFileMode` is the mode the filesystem gives a freshly
written file; `fetchVersionInfoResult` and `fetchBinaryResult` are the
outcomes the injected download function would produce (errors carry the
transport error message); `spawnOutput` is what running the binary with
`--version` would produce. -/
structure World where
  nowMs : Int
  versionInfoFile : Option FileState
  binaryFile : Option Nat
  newFileMode : Nat
  fetchVersionInfoResult : Except String CompilerVersionInfo
  fetchBinaryResult : Except String Unit
  spawnOutput : SpawnOutput
deriving Repr

/-- Observable side effects, in program order: invoking the download
function on the version-info URL, invoking it on the binary URL,
`chmodSync` on the compiler path, spawning the binary for verification,
and the two `console.info` advisories. -/
inductive Event where
  | fetchVersionInfo
  | downloadBinary
  | chmod (mode : Nat)
  | spawnVersion
  | advisoryVersionBehindLatest (version latest : String)
  | advisoryVersionMismatch (expected got : String)
deriving Repr, DecidableEq

/-- Modelled from the spec: `../errors` is not under `src/`. Following
the spec's design note, the free-form plugin error is modelled as a
closed enumeration with structured fields (requested version, window
bounds, transport message) standing in for the formatted constant
strings of `../constants`. -/
inductive ZkSyncSolcPluginError where
  | versionInfoDownloadError
  | versionInfoNotFoundError
  | versionRangeError (requested minVersion latest : String)
  | binaryCorruptionError
  | pluginError (message : String)
deriving Repr, DecidableEq

/-- Modelled from the spec: `DEFAULT_COMPILER_VERSION_INFO_CACHE_PERIOD`
is in `../constants`, not under `src/`; the spec only says the cache TTL
"defaults to a fixed duration", modelled here as one day in
milliseconds. -/
def DEFAULT_COMPILER_VERSION_INFO_CACHE_PERIOD : Int := 24 * 60 * 60 * 1000

/-- The session state of `ZksolcCompilerDownloader`: the (narrowable)
version, the configured compiler path, the compilers directory and the
cache TTL. -/
structure ZksolcCompilerDownloader where
  version : String
  configCompilerPath : String
  compilersDirectory : String
  compilerVersionInfoCachePeriodMs : Int
deriving Repr, DecidableEq

/-- The private constructor with its default cache period. -/
def mkZksolcCompilerDownloader (version configCompilerPath compilersDir : String) :
    ZksolcCompilerDownloader :=
  { version := version
    configCompilerPath := configCompilerPath
    compilersDirectory := compilersDir
    compilerVersionInfoCachePeriodMs := DEFAULT_COMPILER_VERSION_INFO_CACHE_PERIOD }

/-! ## Semantic versions (modelled from the spec)

`isVersionInRange` is imported from `../utils`, which is not under
`src/`. The spec describes it as: parse the requested version as a
semantic version and check `minVersion <= requested <= latest` under
standard semantic-version ordering. Versions are modelled as dotted
numeric triples `major.minor.patch` ordered lexicographically. -/

/-- A parsed semantic version (release triple). -/
structure SemVer where
  major : Nat
  minor : Nat
  patch : Nat
deriving Repr, DecidableEq

/-- Lexicographic (standard semver) ordering on release triples. -/
def SemVer.le (x y : SemVer) : Bool :=
  if x.major ≠ y.major then decide (x.major < y.major)
  else if x.minor ≠ y.minor then decide (x.minor < y.minor)
  else decide (x.patch ≤ y.patch)

/-- Strict semver ordering. -/
def SemVer.lt (x y : SemVer) : Bool :=
  SemVer.le x y && decide (x ≠ y)

/-- Splits a character list on a separator, like `String.split` /
JavaScript `split`: `n` separators yield `n + 1` groups, empty groups
included. -/
def splitOnChar (sep : Char) : List Char → List (List Char)
  | [] => [[]]
  | c :: rest =>
    if c = sep then [] :: splitOnChar sep rest
    else
      match splitOnChar sep rest with
      | [] => [[c]]
      | g :: gs => (c :: g) :: gs

/-- Reads digits into a natural number, failing on a non-digit. -/
def digitsToNat : List Char → Nat → Option Nat
  | [], acc => some acc
  | c :: rest, acc =>
    if c.isDigit then digitsToNat rest (acc * 10 + (c.toNat - 48))
    else none

/-- Reads a nonempty all-digit component as a natural number. -/
def parseNatComponent : List Char → Option Nat
  | [] => none
  | cs => digitsToNat cs 0

/-- Parses a `major.minor.patch` semantic version string. -/
def parseSemVer (s : String) : Option SemVer :=
  match splitOnChar '.' s.toList with
  | [a, b, c] => do
    let ma ← parseNatComponent a
    let mb ← parseNatComponent b
    let mc ← parseNatComponent c
    pure ⟨ma, mb, mc⟩
  | _ => none

/-- Modelled from the spec: `isVersionInRange` lives in `../utils`,
which is not under `src/`. Per the spec it checks
`minVersion <= version <= latest` (inclusive, semantic-version
ordering) on the parsed requested version. -/
def isVersionInRange (version : String) (info : CompilerVersionInfo) : Bool :=
  match parseSemVer version, parseSemVer info.minVersion, parseSemVer info.latest with
  | some v, some lo, some hi => SemVer.le lo v && SemVer.le v hi
  | _, _, _ => false

/-! ## The `\d+\.\d+\.\d+` match of `verifyCompiler`

`versionOutput.stdout?.toString().match(/\d+\.\d+\.\d+/)?.toString()`
returns the leftmost match of the pattern: at each successive start
position, a maximal digit run, a dot, a maximal digit run, a dot, and a
maximal digit run. -/

/-- Splits off the maximal leading digit run. -/
def takeDigits : List Char → List Char × List Char
  | [] => ([], [])
  | c :: rest =>
    if c.isDigit then
      let (ds, r) := takeDigits rest
      (c :: ds, r)
    else ([], c :: rest)

/-- Tries to match `\d+\.\d+\.\d+` anchored at the head of the list,
returning the matched substring. -/
def matchVersionAt (l : List Char) : Option String :=
  let (d1, r1) := takeDigits l
  if d1.isEmpty then none
  else
    match r1 with
    | '.' :: r1t =>
      let (d2, r2) := takeDigits r1t
      if d2.isEmpty then none
      else
        match r2 with
        | '.' :: r2t =>
          let (d3, _) := takeDigits r2t
          if d3.isEmpty then none
          else some (String.mk (d1 ++ '.' :: (d2 ++ '.' :: d3)))
        | _ => none
    | _ => none

/-- Scans for the leftmost match of `\d+\.\d+\.\d+`. -/
def firstVersionMatchAux : List Char → Option String
  | [] => none
  | c :: rest =>
    match matchVersionAt (c :: rest) with
    | some m => some m
    | none => firstVersionMatchAux rest

/-- Embeds `s.match(/\d+\.\d+\.\d+/)?.toString()`: the leftmost match of the
three-component numeric version pattern in `s`, if any. -/
def firstVersionMatch (s : String) : Option String :=
  firstVersionMatchAux s.toList

/-- Embeds `e.message.split('\n')[0]`: the part of a message before its first
newline. -/
def firstLine (s : String) : String :=
  String.mk (splitOnChar '\n' s.toList).headI

/-! ## The effectful methods -/

/-- Mirrors `_getCompilerVersionInfo`: `undefined` when the version-info file is
absent, otherwise its parsed content (well-formed JSON assumed). -/
def _getCompilerVersionInfoW (w : World) : Option CompilerVersionInfo :=
  w.versionInfoFile.map (fun f => f.info)

/-- Mirrors `_shouldDownloadCompilerVersionInfo`: `true` when the file is
absent, otherwise when its age (`now - ctimeMs`) strictly exceeds the
cache period. -/
def _shouldDownloadCompilerVersionInfo (s : ZksolcCompilerDownloader) (w : World) : Bool :=
  match w.versionInfoFile with
  | none => true
  | some f => decide (w.nowMs - f.ctimeMs > s.compilerVersionInfoCachePeriodMs)

/-- Mirrors `_downloadCompilerVersionInfo`: invokes the download function on the
version-info URL; on success the file is written with the fetched
content and the current time as creation time. -/
def _downloadCompilerVersionInfo (w : World) : Except String World :=
  match w.fetchVersionInfoResult with
  | .error msg => .error msg
  | .ok info => .ok { w with versionInfoFile := some ⟨info, w.nowMs⟩ }

/-- Mirrors `_downloadCompiler`: invokes the download function on the binary URL
(custom or canonical — the URL choice is absorbed into
`fetchBinaryResult`), writing the file at the resolved compiler path. -/
def _downloadCompilerBinary (w : World) : Except String World :=
  match w.fetchBinaryResult with
  | .error msg => .error msg
  | .ok _ => .ok { w with binaryFile := some w.newFileMode }

/-- Mirrors `_postProcessCompilerDownload`: `chmodSync(compilerPath, 0o755)`. -/
def _postProcessCompilerDownload (w : World) : World :=
  { w with binaryFile := w.binaryFile.map (fun _ => 0o755) }

/-- Mirrors `isCompilerDownloaded`: existence check at the resolved path. -/
def isCompilerDownloaded (w : World) : Bool :=
  w.binaryFile.isSome

/-- Mirrors `verifyCompiler`: spawns the binary with `--version`, extracts the
first `\d+\.\d+\.\d+` match from stdout; raises the corruption error on
non-zero (or absent) exit status or when no match is found; logs a
mismatch advisory when the match differs from the session version. -/
def verifyCompiler (s : ZksolcCompilerDownloader) (w : World) :
    Except ZkSyncSolcPluginError Unit × List Event :=
  if w.spawnOutput.status ≠ some 0 ∨ w.spawnOutput.stdout.bind firstVersionMatch = none then
    (.error .binaryCorruptionError, [.spawnVersion])
  else
    match w.spawnOutput.stdout.bind firstVersionMatch with
    | some v =>
      if s.version ≠ v then
        (.ok (), [.spawnVersion, .advisoryVersionMismatch s.version v])
      else
        (.ok (), [.spawnVersion])
    | none => (.error .binaryCorruptionError, [.spawnVersion])

/-- The tail of `downloadCompiler` after the manifest has been obtained:
range validation, binary download (error message truncated to its first
line), permission fix-up, verification. -/
def downloadCompilerCore (s : ZksolcCompilerDownloader) (info : CompilerVersionInfo)
    (w : World) : Except ZkSyncSolcPluginError Unit × World × List Event :=
  if isVersionInRange s.version info = false then
    (.error (.versionRangeError s.version info.minVersion info.latest), w, [])
  else
    match _downloadCompilerBinary w with
    | .error msg => (.error (.pluginError (firstLine msg)), w, [.downloadBinary])
    | .ok w1 =>
      ((verifyCompiler s (_postProcessCompilerDownload w1)).1,
       _postProcessCompilerDownload w1,
       [.downloadBinary, .chmod 0o755] ++ (verifyCompiler s (_postProcessCompilerDownload w1)).2)

/-- Mirrors `downloadCompiler` (the body run under the mutex): reads the
version-info file; when it is absent AND stale it refetches it once;
fails when still absent; then validates, downloads, fixes permissions
and verifies. -/
def downloadCompiler (s : ZksolcCompilerDownloader) (w : World) :
    Except ZkSyncSolcPluginError Unit × World × List Event :=
  if (_getCompilerVersionInfoW w).isNone && _shouldDownloadCompilerVersionInfo s w then
    match _downloadCompilerVersionInfo w with
    | .error _ => (.error .versionInfoDownloadError, w, [.fetchVersionInfo])
    | .ok w1 =>
      match _getCompilerVersionInfoW w1 with
      | none => (.error .versionInfoNotFoundError, w1, [.fetchVersionInfo])
      | some info =>
        ((downloadCompilerCore s info w1).1,
         (downloadCompilerCore s info w1).2.1,
         [Event.fetchVersionInfo] ++ (downloadCompilerCore s info w1).2.2)
  else
    match _getCompilerVersionInfoW w with
    | none => (.error .versionInfoNotFoundError, w, [])
    | some info => downloadCompilerCore s info w

/-- The manifest-acquisition phase of `getDownloaderWithVersionValidated`:
reads the version-info file; when it is absent OR stale it refetches it
once; fails when still absent. -/
def _acquireVersionInfo (s : ZksolcCompilerDownloader) (w : World) :
    Except ZkSyncSolcPluginError CompilerVersionInfo × World × List Event :=
  if (_getCompilerVersionInfoW w).isNone || _shouldDownloadCompilerVersionInfo s w then
    match _downloadCompilerVersionInfo w with
    | .error _ => (.error .versionInfoDownloadError, w, [.fetchVersionInfo])
    | .ok w1 =>
      match _getCompilerVersionInfoW w1 with
      | none => (.error .versionInfoNotFoundError, w1, [.fetchVersionInfo])
      | some info => (.ok info, w1, [.fetchVersionInfo])
  else
    match _getCompilerVersionInfoW w with
    | none => (.error .versionInfoNotFoundError, w, [])
    | some info => (.ok info, w, [])

/-- The version-resolution phase of `getDownloaderWithVersionValidated`:
"latest" alias or equality with the manifest's latest narrows to latest;
otherwise out-of-range raises the range error; otherwise the version is
kept and a behind-latest advisory is logged. -/
def _resolveVersion (s : ZksolcCompilerDownloader) (info : CompilerVersionInfo) :
    Except ZkSyncSolcPluginError ZksolcCompilerDownloader × List Event :=
  if s.version = "latest" ∨ s.version = info.latest then
    (.ok { s with version := info.latest }, [])
  else if isVersionInRange s.version info = false then
    (.error (.versionRangeError s.version info.minVersion info.latest), [])
  else
    (.ok s, [.advisoryVersionBehindLatest s.version info.latest])

/-- Mirrors `getDownloaderWithVersionValidated`: when the singleton `_instance`
(modelled as the explicit `inst?` argument) already exists it is
returned unchanged, ignoring the arguments; otherwise a session is
constructed, the manifest acquired and the version resolved. -/
def getDownloaderWithVersionValidated (inst? : Option ZksolcCompilerDownloader)
    (version configCompilerPath compilersDir : String) (w : World) :
    Except ZkSyncSolcPluginError ZksolcCompilerDownloader × World × List Event :=
  match inst? with
  | some inst => (.ok inst, w, [])
  | none =>
    match _acquireVersionInfo (mkZksolcCompilerDownloader version configCompilerPath compilersDir) w with
    | (.error e, w1, evs) => (.error e, w1, evs)
    | (.ok info, w1, evs) =>
      ((_resolveVersion (mkZksolcCompilerDownloader version configCompilerPath compilersDir) info).1,
       w1,
       evs ++ (_resolveVersion (mkZksolcCompilerDownloader version configCompilerPath compilersDir) info).2)

/-! ## Event bookkeeping -/

/-- Whether an event is one of the two non-fatal `console.info`
advisories. -/
def Event.isAdvisory : Event → Bool
  | .advisoryVersionBehindLatest _ _ => true
  | .advisoryVersionMismatch _ _ => true
  | _ => false

/-- Number of advisory events in a trace. -/
def countAdvisories (l : List Event) : Nat :=
  (l.filter Event.isAdvisory).length

/-- Whether an event is a version-info fetch. -/
def Event.isFetch : Event → Bool
  | .fetchVersionInfo => true
  | _ => false

/-- Number of version-info fetches in a trace. -/
def countFetches (l : List Event) : Nat :=
  (l.filter Event.isFetch).length

/-! ## Concrete example states -/

/-- An example manifest. -/
def infoEx : CompilerVersionInfo := ⟨"1.3.13", "1.3.0"⟩

/-- A world with a fresh cached manifest, working transports and a
healthy binary reporting version 1.3.13. -/
def wFresh : World :=
  { nowMs := 0
    versionInfoFile := some ⟨infoEx, 0⟩
    binaryFile := none
    newFileMode := 0o644
    fetchVersionInfoResult := .ok infoEx
    fetchBinaryResult := .ok ()
    spawnOutput := ⟨some 0, some "zksolc version 1.3.13"⟩ }

/-- A session pinned at the example manifest's latest version. -/
def sEx : ZksolcCompilerDownloader :=
  ⟨"1.3.13", "", "dir", DEFAULT_COMPILER_VERSION_INFO_CACHE_PERIOD⟩

/-- Variant of `wFresh` observed long after the manifest file was created, so that
its age strictly exceeds the cache TTL. -/
def wStale : World := { wFresh with nowMs := 100000000000 }

/-! ## Helper lemmas -/

theorem countFetches_append (a b : List Event) :
    countFetches (a ++ b) = countFetches a + countFetches b := by
  simp [countFetches, List.filter_append]

theorem countAdvisories_append (a b : List Event) :
    countAdvisories (a ++ b) = countAdvisories a + countAdvisories b := by
  simp [countAdvisories, List.filter_append]

theorem verifyCompiler_result_cases (s : ZksolcCompilerDownloader) (w : World) :
    (verifyCompiler s w).1 = .ok () ∨ (verifyCompiler s w).1 = .error .binaryCorruptionError := by
  unfold verifyCompiler
  split
  · exact Or.inr rfl
  · split
    · split
      · exact Or.inl rfl
      · exact Or.inl rfl
    · exact Or.inr rfl

theorem verifyCompiler_countFetches (s : ZksolcCompilerDownloader) (w : World) :
    countFetches (verifyCompiler s w).2 = 0 := by
  unfold verifyCompiler
  split
  · simp [countFetches, List.filter, Event.isFetch]
  · split
    · split <;> simp [countFetches, List.filter, Event.isFetch]
    · simp [countFetches, List.filter, Event.isFetch]

theorem downloadCompilerCore_countFetches (s : ZksolcCompilerDownloader)
    (info : CompilerVersionInfo) (w : World) :
    countFetches (downloadCompilerCore s info w).2.2 = 0 := by
  unfold downloadCompilerCore
  split
  · simp [countFetches, List.filter]
  · cases hb : _downloadCompilerBinary w with
    | error msg => simp [countFetches, List.filter, Event.isFetch]
    | ok w1 =>
      show countFetches
        ([Event.downloadBinary, Event.chmod 0o755]
          ++ (verifyCompiler s (_postProcessCompilerDownload w1)).2) = 0
      rw [countFetches_append, verifyCompiler_countFetches]
      rfl

theorem _acquireVersionInfo_no_advisories (s : ZksolcCompilerDownloader) (w : World) :
    countAdvisories (_acquireVersionInfo s w).2.2 = 0 := by
  unfold _acquireVersionInfo
  split
  · cases hd : _downloadCompilerVersionInfo w with
    | error msg => simp [countAdvisories, List.filter, Event.isAdvisory]
    | ok w1 =>
      cases hg : _getCompilerVersionInfoW w1 <;>
        simp [hg, countAdvisories, List.filter, Event.isAdvisory]
  · cases hg : _getCompilerVersionInfoW w <;>
      simp [hg, countAdvisories, List.filter, Event.isAdvisory]

theorem _acquireVersionInfo_countFetches (s : ZksolcCompilerDownloader) (w : World) :
    countFetches (_acquireVersionInfo s w).2.2
      = (if ((_getCompilerVersionInfoW w).isNone || _shouldDownloadCompilerVersionInfo s w) = true
         then 1 else 0) := by
  unfold _acquireVersionInfo
  split
  case isTrue h =>
    cases hd : _downloadCompilerVersionInfo w with
    | error msg => simp [countFetches, List.filter, Event.isFetch]
    | ok w1 =>
      cases hg : _getCompilerVersionInfoW w1 <;>
        simp [hg, countFetches, List.filter, Event.isFetch]
  case isFalse h =>
    cases hg : _getCompilerVersionInfoW w <;>
      simp [hg, countFetches, List.filter, Event.isFetch]

theorem _getCompilerVersionInfoW_none_should (s : ZksolcCompilerDownloader) (w : World)
    (h : _getCompilerVersionInfoW w = none) :
    _shouldDownloadCompilerVersionInfo s w = true := by
  unfold _getCompilerVersionInfoW at h
  unfold _shouldDownloadCompilerVersionInfo
  cases hw : w.versionInfoFile with
  | none => rfl
  | some f => rw [hw] at h; simp at h

theorem getDownloader_none_eq (version cfg dir : String) (w : World) :
    getDownloaderWithVersionValidated none version cfg dir w
      = match _acquireVersionInfo (mkZksolcCompilerDownloader version cfg dir) w with
        | (.error e, w1, evs) => (.error e, w1, evs)
        | (.ok info, w1, evs) =>
          ((_resolveVersion (mkZksolcCompilerDownloader version cfg dir) info).1, w1,
           evs ++ (_resolveVersion (mkZksolcCompilerDownloader version cfg dir) info).2) := rfl

/-! ## Claim theorems -/

/-- C9: For every call to `getDownloaderWithVersionValidated` after the
first in a process, the arguments are ignored: the previously
constructed singleton is returned unchanged, the world is untouched (no
manifest read/fetch) and no validation event occurs, even when the new
arguments request a different or out-of-range version. -/
theorem getDownloader_second_call_ignores_arguments (inst : ZksolcCompilerDownloader)
    (version configCompilerPath compilersDir : String) (w : World) :
    getDownloaderWithVersionValidated (some inst) version configCompilerPath compilersDir w
      = (.ok inst, w, []) := rfl

/-- C5: `verifyCompiler` raises the binary-corruption error iff the
subprocess exit status is not a successful zero or its stdout contains
no `\d+\.\d+\.\d+` match; and when status is zero and the first match
differs from the session version, it logs a mismatch advisory and
returns normally. -/
theorem verifyCompiler_corruption_iff_mismatch_advisory
    (s : ZksolcCompilerDownloader) (w : World) :
    ((verifyCompiler s w).1 = .error .binaryCorruptionError
      ↔ (w.spawnOutput.status ≠ some 0
          ∨ w.spawnOutput.stdout.bind firstVersionMatch = none))
    ∧ (∀ v : String, w.spawnOutput.status = some 0 →
        w.spawnOutput.stdout.bind firstVersionMatch = some v → v ≠ s.version →
        verifyCompiler s w
          = (.ok (), [.spawnVersion, .advisoryVersionMismatch s.version v])) := by
  constructor
  · unfold verifyCompiler
    rcases Decidable.em
        (w.spawnOutput.status ≠ some 0
          ∨ w.spawnOutput.stdout.bind firstVersionMatch = none) with h | h
    · rw [if_pos h]
      simpa using h
    · rw [if_neg h]
      push_neg at h
      cases hv : w.spawnOutput.stdout.bind firstVersionMatch with
      | none => exact absurd hv h.2
      | some v =>
        simp only [hv]
        simp only [h.1, hv] at *
        constructor
        · intro hres
          split at hres <;> simp at hres
        · intro hor
          rcases hor with h1 | h2
          · exact absurd rfl h1
          · exact absurd h2 (by simp)
  · intro v h1 h2 hne
    have hcond : ¬(w.spawnOutput.status ≠ some 0
        ∨ w.spawnOutput.stdout.bind firstVersionMatch = none) := by
      push_neg
      exact ⟨by simp [h1], by simp [h2]⟩
    unfold verifyCompiler
    rw [if_neg hcond]
    simp only [h2]
    rw [if_pos (Ne.symm hne)]

/-- C5 witness: a binary exiting 0 with stdout `"zksolc version
1.3.13"` against a session resolved at `"1.3.0"` returns normally with
exactly the mismatch advisory. -/
theorem verifyCompiler_mismatch_advisory_witness :
    verifyCompiler ⟨"1.3.0", "", "dir", DEFAULT_COMPILER_VERSION_INFO_CACHE_PERIOD⟩ wFresh
      = (.ok (), [.spawnVersion, .advisoryVersionMismatch "1.3.0" "1.3.13"]) :=
  (verifyCompiler_corruption_iff_mismatch_advisory
    ⟨"1.3.0", "", "dir", DEFAULT_COMPILER_VERSION_INFO_CACHE_PERIOD⟩ wFresh).2
    "1.3.13" rfl rfl (by decide)

/-- C1: When the requested version is the literal `"latest"` or equals
the manifest's `latest` (exact string comparison), session construction
resolves the session version to the manifest's `latest`, regardless of
`minVersion`, raising no error and emitting no advisory. -/
theorem latest_or_equal_resolves_to_latest (version cfg dir : String) (w w1 : World)
    (info : CompilerVersionInfo) (evs : List Event)
    (hAcq : _acquireVersionInfo (mkZksolcCompilerDownloader version cfg dir) w
              = (.ok info, w1, evs))
    (hv : version = "latest" ∨ version = info.latest) :
    (getDownloaderWithVersionValidated none version cfg dir w).1
        = .ok { mkZksolcCompilerDownloader version cfg dir with version := info.latest }
    ∧ countAdvisories (getDownloaderWithVersionValidated none version cfg dir w).2.2 = 0 := by
  have hres : _resolveVersion (mkZksolcCompilerDownloader version cfg dir) info
      = (.ok { mkZksolcCompilerDownloader version cfg dir with version := info.latest }, []) := by
    unfold _resolveVersion
    rw [if_pos (by simpa [mkZksolcCompilerDownloader] using hv)]
  have hadv := _acquireVersionInfo_no_advisories (mkZksolcCompilerDownloader version cfg dir) w
  rw [hAcq] at hadv
  rw [getDownloader_none_eq, hAcq]
  simp only [hres]
  constructor
  · trivial
  · simpa [countAdvisories_append] using hadv

/-- C1 witness: requesting `"latest"` against a fresh cached manifest
with latest `"1.3.13"` resolves to `"1.3.13"` with no advisory. -/
theorem latest_or_equal_resolves_to_latest_witness :
    (getDownloaderWithVersionValidated none "latest" "" "dir" wFresh).1
        = .ok { mkZksolcCompilerDownloader "latest" "" "dir" with version := infoEx.latest }
    ∧ countAdvisories (getDownloaderWithVersionValidated none "latest" "" "dir" wFresh).2.2 = 0 :=
  latest_or_equal_resolves_to_latest "latest" "" "dir" wFresh wFresh infoEx [] rfl (Or.inl rfl)

/-- C4: A requested version that is not the `"latest"` alias, not equal
to the manifest's `latest`, and outside the inclusive semver range
`[minVersion, latest]` makes session construction fail with the
version-range error carrying the original requested string and both
window bounds. -/
theorem out_of_range_raises_version_range_error (version cfg dir : String) (w w1 : World)
    (info : CompilerVersionInfo) (evs : List Event) (v lo hi : SemVer)
    (hAcq : _acquireVersionInfo (mkZksolcCompilerDownloader version cfg dir) w
              = (.ok info, w1, evs))
    (h1 : version ≠ "latest") (h2 : version ≠ info.latest)
    (hv : parseSemVer version = some v)
    (hlo : parseSemVer info.minVersion = some lo)
    (hhi : parseSemVer info.latest = some hi)
    (hout : SemVer.le lo v = false ∨ SemVer.le v hi = false) :
    (getDownloaderWithVersionValidated none version cfg dir w).1
      = .error (.versionRangeError version info.minVersion info.latest) := by
  have hrange : isVersionInRange version info = false := by
    unfold isVersionInRange
    rw [hv, hlo, hhi]
    rcases hout with h | h <;> simp [h]
  have hres : _resolveVersion (mkZksolcCompilerDownloader version cfg dir) info
      = (.error (.versionRangeError version info.minVersion info.latest), []) := by
    unfold _resolveVersion
    rw [if_neg (by simp [mkZksolcCompilerDownloader, h1, h2])]
    rw [if_pos (by simpa [mkZksolcCompilerDownloader] using hrange)]
    rfl
  rw [getDownloader_none_eq, hAcq]
  simp only [hres]

/-- C4 witness: requesting `"1.2.0"` against the manifest
`{latest: "1.3.13", minVersion: "1.3.0"}` fails with the range error
carrying `"1.2.0"` and the window. -/
theorem out_of_range_raises_version_range_error_witness :
    (getDownloaderWithVersionValidated none "1.2.0" "" "dir" wFresh).1
      = .error (.versionRangeError "1.2.0" "1.3.0" "1.3.13") :=
  out_of_range_raises_version_range_error "1.2.0" "" "dir" wFresh wFresh infoEx []
    ⟨1, 2, 0⟩ ⟨1, 3, 0⟩ ⟨1, 3, 13⟩ rfl (by decide) (by decide) rfl rfl rfl (Or.inl rfl)

/-- C6: A requested version strictly between `minVersion` and `latest`
(and neither the alias nor `latest` itself) is accepted at session
construction: the session version stays the requested string, no error
is raised, and exactly one behind-latest advisory is emitted. -/
theorem in_range_version_behind_latest_advisory (version cfg dir : String) (w w1 : World)
    (info : CompilerVersionInfo) (evs : List Event) (v lo hi : SemVer)
    (hAcq : _acquireVersionInfo (mkZksolcCompilerDownloader version cfg dir) w
              = (.ok info, w1, evs))
    (h1 : version ≠ "latest") (h2 : version ≠ info.latest)
    (hv : parseSemVer version = some v)
    (hlo : parseSemVer info.minVersion = some lo)
    (hhi : parseSemVer info.latest = some hi)
    (hin1 : SemVer.lt lo v = true) (hin2 : SemVer.lt v hi = true) :
    getDownloaderWithVersionValidated none version cfg dir w
      = (.ok (mkZksolcCompilerDownloader version cfg dir), w1,
         evs ++ [.advisoryVersionBehindLatest version info.latest])
    ∧ countAdvisories (getDownloaderWithVersionValidated none version cfg dir w).2.2 = 1 := by
  have hle1 : SemVer.le lo v = true := by
    unfold SemVer.lt at hin1
    simp only [Bool.and_eq_true, decide_eq_true_eq] at hin1
    exact hin1.1
  have hle2 : SemVer.le v hi = true := by
    unfold SemVer.lt at hin2
    simp only [Bool.and_eq_true, decide_eq_true_eq] at hin2
    exact hin2.1
  have hrange : isVersionInRange version info = true := by
    unfold isVersionInRange
    rw [hv, hlo, hhi]
    simp [hle1, hle2]
  have hres : _resolveVersion (mkZksolcCompilerDownloader version cfg dir) info
      = (.ok (mkZksolcCompilerDownloader version cfg dir),
         [.advisoryVersionBehindLatest version info.latest]) := by
    unfold _resolveVersion
    rw [if_neg (by simp [mkZksolcCompilerDownloader, h1, h2])]
    rw [if_neg (by simp [mkZksolcCompilerDownloader, hrange])]
    rfl
  have hadv := _acquireVersionInfo_no_advisories (mkZksolcCompilerDownloader version cfg dir) w
  rw [hAcq] at hadv
  rw [getDownloader_none_eq, hAcq]
  simp only [hres]
  constructor
  · trivial
  · simpa [countAdvisories_append, countAdvisories, List.filter, Event.isAdvisory] using hadv

/-- C6 witness: requesting `"1.3.5"` against the manifest
`{latest: "1.3.13", minVersion: "1.3.0"}` is accepted with exactly one
behind-latest advisory, the session version staying `"1.3.5"`. -/
theorem in_range_version_behind_latest_advisory_witness :
    getDownloaderWithVersionValidated none "1.3.5" "" "dir" wFresh
      = (.ok (mkZksolcCompilerDownloader "1.3.5" "" "dir"), wFresh,
         [.advisoryVersionBehindLatest "1.3.5" "1.3.13"])
    ∧ countAdvisories (getDownloaderWithVersionValidated none "1.3.5" "" "dir" wFresh).2.2 = 1 :=
  in_range_version_behind_latest_advisory "1.3.5" "" "dir" wFresh wFresh infoEx []
    ⟨1, 3, 5⟩ ⟨1, 3, 0⟩ ⟨1, 3, 13⟩ rfl (by decide) (by decide) rfl rfl rfl rfl rfl

/-! ## Facts about `downloadCompiler` -/

theorem downloadCompiler_present_eq (s : ZksolcCompilerDownloader) (w : World)
    (f : FileState) (h : w.versionInfoFile = some f) :
    downloadCompiler s w = downloadCompilerCore s f.info w := by
  have hinfo : _getCompilerVersionInfoW w = some f.info := by
    simp [_getCompilerVersionInfoW, h]
  unfold downloadCompiler
  simp [hinfo]

theorem verifyCompiler_pass (s : ZksolcCompilerDownloader) (w : World)
    (hStatus : w.spawnOutput.status = some 0)
    (hOut : w.spawnOutput.stdout.bind firstVersionMatch = some s.version) :
    verifyCompiler s w = (.ok (), [.spawnVersion]) := by
  unfold verifyCompiler
  rw [if_neg (by push_neg; exact ⟨hStatus, by simp [hOut]⟩)]
  simp only [hOut]
  rw [if_neg (by simp)]

theorem verifyCompiler_corrupt (s : ZksolcCompilerDownloader) (w : World)
    (h : w.spawnOutput.status ≠ some 0
        ∨ w.spawnOutput.stdout.bind firstVersionMatch = none) :
    verifyCompiler s w = (.error .binaryCorruptionError, [.spawnVersion]) := by
  unfold verifyCompiler
  rw [if_pos h]

theorem _downloadCompilerBinary_ok (w : World) (hFetch : w.fetchBinaryResult = .ok ()) :
    _downloadCompilerBinary w = .ok { w with binaryFile := some w.newFileMode } := by
  unfold _downloadCompilerBinary
  rw [hFetch]

theorem _postProcessCompilerDownload_some (w : World) (m : Nat) :
    _postProcessCompilerDownload { w with binaryFile := some m }
      = { w with binaryFile := some 0o755 } := by
  unfold _postProcessCompilerDownload
  simp

/-- C3 counterexample: with the manifest `{latest: "1.0.0", minVersion:
"2.0.0"}` (inconsistent window) and a session whose resolved version
equals the manifest's `latest`, `downloadCompiler` raises the
version-range error instead of accepting the version as the claim
states. -/
theorem downloadCompiler_latest_inconsistent_window_cex :
    (⟨"1.0.0", "", "dir", DEFAULT_COMPILER_VERSION_INFO_CACHE_PERIOD⟩ :
        ZksolcCompilerDownloader).version
      = (⟨"1.0.0", "2.0.0"⟩ : CompilerVersionInfo).latest
    ∧ (downloadCompiler ⟨"1.0.0", "", "dir", DEFAULT_COMPILER_VERSION_INFO_CACHE_PERIOD⟩
          { wFresh with versionInfoFile := some ⟨⟨"1.0.0", "2.0.0"⟩, 0⟩ }).1
        = .error (.versionRangeError "1.0.0" "2.0.0" "1.0.0") :=
  ⟨rfl, rfl⟩

/-- C3 (amended): `downloadCompiler` re-validates only through the
range check, without the "equals latest" shortcut of session
construction: with the cached manifest in effect it raises the
version-range error exactly when `isVersionInRange` rejects the session
version — in particular also when the session version equals the
manifest's `latest` but the window is inconsistent. -/
theorem downloadCompiler_range_error_iff_not_in_range (s : ZksolcCompilerDownloader)
    (w : World) (f : FileState) (h : w.versionInfoFile = some f) :
    ((downloadCompiler s w).1
        = .error (.versionRangeError s.version f.info.minVersion f.info.latest))
      ↔ isVersionInRange s.version f.info = false := by
  rw [downloadCompiler_present_eq s w f h]
  unfold downloadCompilerCore
  split
  case isTrue hr => simp [hr]
  case isFalse hr =>
    apply iff_of_false
    · cases hb : _downloadCompilerBinary w with
      | error msg => simp [hb]
      | ok w1 =>
        simp only [hb]
        rcases verifyCompiler_result_cases s (_postProcessCompilerDownload w1) with hok | herr
        · simp [hok]
        · simp [herr]
    · exact hr

/-- C3 witness: the amended rule applied to the inconsistent window
`{latest: "1.0.0", minVersion: "2.0.0"}` at session version `"1.0.0"`. -/
theorem downloadCompiler_range_error_iff_not_in_range_witness :
    (downloadCompiler ⟨"1.0.0", "", "dir", DEFAULT_COMPILER_VERSION_INFO_CACHE_PERIOD⟩
        { wFresh with versionInfoFile := some ⟨⟨"1.0.0", "2.0.0"⟩, 0⟩ }).1
      = .error (.versionRangeError "1.0.0" "2.0.0" "1.0.0") :=
  (downloadCompiler_range_error_iff_not_in_range
    ⟨"1.0.0", "", "dir", DEFAULT_COMPILER_VERSION_INFO_CACHE_PERIOD⟩
    { wFresh with versionInfoFile := some ⟨⟨"1.0.0", "2.0.0"⟩, 0⟩ }
    ⟨⟨"1.0.0", "2.0.0"⟩, 0⟩ rfl).mpr rfl

/-- C7: `downloadCompiler` is not short-circuited by the presence of
the binary: when the binary already exists at the resolved path (and
would pass verification), the full download, permission fix-up
(chmod 0o755) and verification sequence still runs. -/
theorem downloadCompiler_not_short_circuited (s : ZksolcCompilerDownloader) (w : World)
    (f : FileState) (m : Nat)
    (hFile : w.versionInfoFile = some f)
    (hBin : w.binaryFile = some m)
    (hRange : isVersionInRange s.version f.info = true)
    (hFetch : w.fetchBinaryResult = .ok ())
    (hStatus : w.spawnOutput.status = some 0)
    (hOut : w.spawnOutput.stdout.bind firstVersionMatch = some s.version) :
    downloadCompiler s w
      = (.ok (), { w with binaryFile := some 0o755 },
         [.downloadBinary, .chmod 0o755, .spawnVersion]) := by
  rw [downloadCompiler_present_eq s w f hFile]
  unfold downloadCompilerCore
  rw [if_neg (by simp [hRange])]
  simp only [_downloadCompilerBinary_ok w hFetch]
  rw [_postProcessCompilerDownload_some w w.newFileMode]
  rw [verifyCompiler_pass s { w with binaryFile := some 0o755 } hStatus hOut]
  rfl

/-- C7 witness: with the binary already present (mode 0o644) and a
healthy environment, `downloadCompiler` still downloads, chmods and
verifies. -/
theorem downloadCompiler_not_short_circuited_witness :
    downloadCompiler sEx { wFresh with binaryFile := some 0o644 }
      = (.ok (), { { wFresh with binaryFile := some 0o644 } with binaryFile := some 0o755 },
         [.downloadBinary, .chmod 0o755, .spawnVersion]) :=
  downloadCompiler_not_short_circuited sEx { wFresh with binaryFile := some 0o644 }
    ⟨infoEx, 0⟩ 0o644 rfl rfl rfl rfl rfl rfl

/-- C8: when the binary download step fails with a transport error, the
error surfaced by `downloadCompiler` is the plugin error whose message
is exactly the first line of the transport error's message. -/
theorem binary_download_error_truncated_to_first_line (s : ZksolcCompilerDownloader)
    (w : World) (f : FileState) (msg : String)
    (hFile : w.versionInfoFile = some f)
    (hRange : isVersionInRange s.version f.info = true)
    (hFetch : w.fetchBinaryResult = .error msg) :
    downloadCompiler s w = (.error (.pluginError (firstLine msg)), w, [.downloadBinary]) := by
  rw [downloadCompiler_present_eq s w f hFile]
  unfold downloadCompilerCore
  rw [if_neg (by simp [hRange])]
  have hb : _downloadCompilerBinary w = .error msg := by
    unfold _downloadCompilerBinary
    rw [hFetch]
  simp only [hb]

/-- C8 witness: the transport error `"boom\nverbose details"` surfaces
as the plugin error `"boom"`. -/
theorem binary_download_error_truncated_witness :
    downloadCompiler sEx { wFresh with fetchBinaryResult := .error "boom\nverbose details" }
      = (.error (.pluginError "boom"),
         { wFresh with fetchBinaryResult := .error "boom\nverbose details" },
         [.downloadBinary]) :=
  binary_download_error_truncated_to_first_line sEx
    { wFresh with fetchBinaryResult := .error "boom\nverbose details" }
    ⟨infoEx, 0⟩ "boom\nverbose details" rfl rfl rfl

/-- C10: when download and chmod succeed but verification classifies
the binary as corrupt, `downloadCompiler` propagates the corruption
error while the downloaded binary remains on disk at the resolved path
with permissions 0o755 — no cleanup of filesystem state happens. -/
theorem verification_failure_leaves_binary_on_disk (s : ZksolcCompilerDownloader)
    (w : World) (f : FileState)
    (hFile : w.versionInfoFile = some f)
    (hRange : isVersionInRange s.version f.info = true)
    (hFetch : w.fetchBinaryResult = .ok ())
    (hCorrupt : w.spawnOutput.status ≠ some 0
        ∨ w.spawnOutput.stdout.bind firstVersionMatch = none) :
    downloadCompiler s w
      = (.error .binaryCorruptionError, { w with binaryFile := some 0o755 },
         [.downloadBinary, .chmod 0o755, .spawnVersion]) := by
  rw [downloadCompiler_present_eq s w f hFile]
  unfold downloadCompilerCore
  rw [if_neg (by simp [hRange])]
  simp only [_downloadCompilerBinary_ok w hFetch]
  rw [_postProcessCompilerDownload_some w w.newFileMode]
  rw [verifyCompiler_corrupt s { w with binaryFile := some 0o755 } hCorrupt]
  rfl

/-- C10 witness: a binary whose `--version` run exits with status 1
leaves the corruption error and a 0o755 binary on disk. -/
theorem verification_failure_leaves_binary_on_disk_witness :
    downloadCompiler sEx { wFresh with spawnOutput := ⟨some 1, some "err"⟩ }
      = (.error .binaryCorruptionError,
         { { wFresh with spawnOutput := ⟨some 1, some "err"⟩ } with binaryFile := some 0o755 },
         [.downloadBinary, .chmod 0o755, .spawnVersion]) :=
  verification_failure_leaves_binary_on_disk sEx
    { wFresh with spawnOutput := ⟨some 1, some "err"⟩ }
    ⟨infoEx, 0⟩ rfl rfl rfl (Or.inl (by decide))

/-- C2 counterexample: a present-but-stale manifest file (age strictly
above the TTL) triggers ZERO refetches in `downloadCompiler`, because
its guard requires the file to be absent AND stale (`&&`), contradicting
the claim that staleness alone triggers exactly one refetch there. -/
theorem downloadCompiler_stale_manifest_no_refetch_cex :
    _shouldDownloadCompilerVersionInfo sEx wStale = true
    ∧ (_getCompilerVersionInfoW wStale).isNone = false
    ∧ countFetches (downloadCompiler sEx wStale).2.2 = 0 :=
  ⟨rfl, rfl, rfl⟩

/-- C2 (amended): at session construction an absent-or-stale manifest
file triggers exactly one refetch and a fresh one triggers zero; in
`downloadCompiler` the refetch happens exactly when the file is absent
— a present file, fresh or stale, triggers zero refetches there. -/
theorem refetch_on_absent_or_stale (version cfg dir : String)
    (s : ZksolcCompilerDownloader) (w : World) :
    countFetches (getDownloaderWithVersionValidated none version cfg dir w).2.2
      = (if ((_getCompilerVersionInfoW w).isNone
              || _shouldDownloadCompilerVersionInfo (mkZksolcCompilerDownloader version cfg dir) w)
            = true
         then 1 else 0)
    ∧ countFetches (downloadCompiler s w).2.2
        = (if (_getCompilerVersionInfoW w).isNone = true then 1 else 0) := by
  constructor
  · rw [getDownloader_none_eq]
    have hcount := _acquireVersionInfo_countFetches (mkZksolcCompilerDownloader version cfg dir) w
    rcases hA : _acquireVersionInfo (mkZksolcCompilerDownloader version cfg dir) w with ⟨r, w1, evs⟩
    rw [hA] at hcount
    cases r with
    | error e => simpa using hcount
    | ok info =>
      have hres0 : countFetches
          (_resolveVersion (mkZksolcCompilerDownloader version cfg dir) info).2 = 0 := by
        unfold _resolveVersion
        split
        · simp [countFetches, List.filter]
        · split <;> simp [countFetches, List.filter, Event.isFetch]
      show countFetches
          (evs ++ (_resolveVersion (mkZksolcCompilerDownloader version cfg dir) info).2)
        = _
      rw [countFetches_append, hres0]
      simpa using hcount
  · cases hg : _getCompilerVersionInfoW w with
    | some f =>
      unfold downloadCompiler
      rw [hg]
      simp [downloadCompilerCore_countFetches]
    | none =>
      have hsh := _getCompilerVersionInfoW_none_should s w hg
      unfold downloadCompiler
      rw [hg, hsh]
      cases hd : _downloadCompilerVersionInfo w with
      | error msg => simp [countFetches, List.filter, Event.isFetch]
      | ok w1 =>
        cases hg1 : _getCompilerVersionInfoW w1 with
        | none => simp [hg1, countFetches, List.filter, Event.isFetch]
        | some info =>
          simp only [hg1]
          show countFetches
              ([Event.fetchVersionInfo] ++ (downloadCompilerCore s info w1).2.2)
            = _
          rw [countFetches_append, downloadCompilerCore_countFetches]
          simp [countFetches, List.filter, Event.isFetch]

end Downloader
